import Mathlib

/-!
Shallow embedding of the polyglot migration engine
(`migracion_poliglota.py`, class `MigradorPoliglota`).

Modelling conventions:
* a PostgreSQL cell is a scalar `Valor`;
* a source row (`SourceRecord`) is a `List Valor`, positional;
* a Neo4j parameter record (a Python dict built by successive
  assignments) is a `Registro`, an association list in insertion order;
* the relational store is a `Fuente`: a map from SQL text to either an
  error (a raised exception) or the `fetchall()` row list;
* Python exceptions (`IndexError` from `lista[i]`, `StopIteration`
  from `next(...)`, a driver error from `cursor.execute`) become
  `MigError`; code that does not catch them propagates the error value;
* every externally visible action of a run (session writes, progress
  prints) is an `Evento`; a run returns the trace of events that
  happened before the run finished or aborted, plus the uncaught error
  if one aborted it.
-/

/-- A scalar value held in one column of a source row. -/
inductive Valor where
  | entero (n : Int)
  | texto (s : String)
  | nulo
deriving DecidableEq, Repr

/-- A Neo4j parameter record: a Python dict in insertion order. -/
abbrev Registro := List (String × Valor)

/-- Python dict assignment `d[k] = v`: if `k` is already a key the value is
overwritten in place (original position kept), otherwise the pair is
appended at the end. -/
def dictInsert (d : Registro) (k : String) (v : Valor) : Registro :=
  if d.any (fun p => p.1 == k) then
    d.map (fun p => if p.1 == k then (k, v) else p)
  else
    d ++ [(k, v)]

/-- Row-to-record conversion loop body (lines 201-206 of the source):
`for i, campo_sql in enumerate(campos_sql): registro[mapeo[campo_sql]] = fila[i]`.
The field-map entries are consumed in order against successive row
positions; `fila[i]` past the end of the row is an `IndexError`, here
`none`. -/
def convertirFilaGo : List (String × String) → List Valor → Registro → Option Registro
  | [], _, acc => some acc
  | _ :: _, [], _ => none
  | (_, campoNeo4j) :: resto, v :: vs, acc =>
      convertirFilaGo resto vs (dictInsert acc campoNeo4j v)

/-- Convert one source row to a parameter record under `mapeo_campos`
(lines 200-206 of the source): starts from the empty dict. -/
def convertirFila (mapeo : List (String × String)) (fila : List Valor) : Option Registro :=
  convertirFilaGo mapeo fila []

/-- Convert one relationship source row (lines 250-256 of the source):
`{'id_origen': fila[0], 'id_destino': fila[1]}`; a row with fewer than
two columns raises `IndexError` (`none`). -/
def convertirFilaRel (fila : List Valor) : Option Registro :=
  match fila with
  | v0 :: v1 :: _ => some [("id_origen", v0), ("id_destino", v1)]
  | _ => none

/-- Errors a migration run can abort with: a failed source query
(driver exception from `cursor.execute`), a Python `IndexError`
(`lista[0]` / `fila[i]` on a too-short list), or `StopIteration`
(`next(...)` over an empty generator). -/
inductive MigError where
  | queryError (consulta : String) (msg : String)
  | indexError
  | stopIteration
deriving DecidableEq, Repr

/-- One entity mapping from `mapeo_migracion.json`: keys `nombre`,
`etiqueta_neo4j`, `consulta_sql`, `mapeo_campos` (a JSON object, hence
an ordered list of pairs with distinct keys). -/
structure Entidad where
  nombre : String
  etiqueta : String
  consulta : String
  mapeo : List (String × String)
deriving DecidableEq, Repr

/-- One relationship mapping from `mapeo_migracion.json`: keys `nombre`,
`tipo_relacion`, `consulta_sql`, `nodo_origen`, `nodo_destino`. -/
structure Relacion where
  nombre : String
  tipo : String
  consulta : String
  nodoOrigen : String
  nodoDestino : String
deriving DecidableEq, Repr

/-- The `opciones` block: `limpiar_neo4j_antes`, `crear_indices`,
`modo_debug`, each read with `.get(..., False)`. -/
structure Opciones where
  limpiarAntes : Bool
  crearIndices : Bool
  modoDebug : Bool
deriving DecidableEq, Repr

/-- A decoded migration mapping: `entidades`, `relaciones`, `opciones`. -/
structure Mapeo where
  entidades : List Entidad
  relaciones : List Relacion
  opciones : Opciones
deriving DecidableEq, Repr

/-- The relational store as seen through
`obtener_datos_postgresql` (lines 100-112): SQL text to either a raised
driver error or the full `fetchall()` result. -/
abbrev Fuente := String → Except String (List (List Valor))

/-- Node upsert statement generation (lines 208-218 of the source):
`id_campo = campos_neo4j[0]` (an `IndexError`, hence `none`, when the
field map is empty) and the f-string

`MERGE (n:{etiqueta} \x7b\x7b{id_campo}: ${id_campo}\x7d\x7d) / SET {join(campos_set)}`

with its exact original whitespace. -/
def genConsultaNodo (etiqueta : String) (camposNeo4j : List String) : Option String :=
  match camposNeo4j with
  | [] => none
  | idCampo :: _ =>
    let camposSet := camposNeo4j.map (fun campo => "n." ++ campo ++ " = $" ++ campo)
    some ("\n                    MERGE (n:" ++ etiqueta ++ " \x7b" ++ idCampo ++ ": $" ++ idCampo
      ++ "\x7d)\n                    SET " ++ String.intercalate ", " camposSet
      ++ "\n                ")

/-- Structured reading of a generated node statement: a label, the single
property the MERGE clause matches on, and the list of properties the SET
clause assigns. -/
structure NodeUpsert where
  label : String
  mergeProp : String
  setProps : List String
deriving DecidableEq, Repr

/-- Render a `NodeUpsert` in the engine's concrete statement syntax:
MERGE on exactly `mergeProp`, then SET of every property in `setProps`. -/
def renderNodeUpsert (u : NodeUpsert) : String :=
  "\n                    MERGE (n:" ++ u.label ++ " \x7b" ++ u.mergeProp ++ ": $" ++ u.mergeProp
    ++ "\x7d)\n                    SET "
    ++ String.intercalate ", " (u.setProps.map (fun campo => "n." ++ campo ++ " = $" ++ campo))
    ++ "\n                "

/-- Relationship statement generation (lines 258-272 of the source):
resolve the origin and destination entity configurations with
`next(e for e in entidades if e['etiqueta_neo4j'] == ...)`
(`StopIteration` when no entity matches), take
`list(mapeo_campos.values())[0]` of each (`IndexError` when empty), and
build the MATCH/MATCH/MERGE f-string with its exact whitespace. -/
def genConsultaRel (entidades : List Entidad) (rel : Relacion) : Except MigError String :=
  match entidades.find? (fun e => e.etiqueta == rel.nodoOrigen) with
  | none => .error .stopIteration
  | some origenCfg =>
    match entidades.find? (fun e => e.etiqueta == rel.nodoDestino) with
    | none => .error .stopIteration
    | some destinoCfg =>
      match (origenCfg.mapeo.map Prod.snd).head? with
      | none => .error .indexError
      | some campoIdOrigen =>
        match (destinoCfg.mapeo.map Prod.snd).head? with
        | none => .error .indexError
        | some campoIdDestino =>
          .ok ("\n                    MATCH (origen:" ++ rel.nodoOrigen ++ " \x7b" ++ campoIdOrigen
            ++ ": $id_origen\x7d)\n                    MATCH (destino:" ++ rel.nodoDestino
            ++ " \x7b" ++ campoIdDestino ++ ": $id_destino\x7d)\n                    MERGE (origen)-[:"
            ++ rel.tipo ++ "]->(destino)\n                ")

/-- Externally visible actions of a run, in the order they happen:
the `DETACH DELETE` clear, the per-entity progress print (line 187), the
empty-result warnings (lines 193, 246), the batched node and relationship
writes (`execute_write` with one statement text and the full record
list), the per-relationship progress print (line 240), index creation,
and the statistics queries. -/
inductive Evento where
  | limpiado
  | migrandoEntidad (nombre etiqueta : String)
  | sinDatosEntidad (nombre : String)
  | nodosEscritos (etiqueta consulta : String) (registros : List Registro)
  | creandoRelaciones (tipo : String)
  | sinDatosRelacion (nombre : String)
  | relacionesEscritas (tipo consulta : String) (registros : List Registro)
  | indiceCreado (etiqueta campo : String)
  | estadisticaNodos (etiqueta : String)
  | estadisticaRelaciones (tipo : String)
deriving DecidableEq, Repr

/-- FASE 1 loop (lines 183-229 of the source). For each entity in
declaration order: announce it, fetch its rows (an uncaught driver error
aborts the whole run — there is no try/except in this loop), skip on an
empty result, convert every row, generate the node statement, and write
the batch. Conversion or generation errors also abort the run. -/
def migrarEntidades (db : Fuente) : List Entidad → List Evento × Option MigError
  | [] => ([], none)
  | ent :: resto =>
    match db ent.consulta with
    | .error msg =>
        ([.migrandoEntidad ent.nombre ent.etiqueta], some (.queryError ent.consulta msg))
    | .ok [] =>
        (.migrandoEntidad ent.nombre ent.etiqueta :: .sinDatosEntidad ent.nombre ::
          (migrarEntidades db resto).1,
         (migrarEntidades db resto).2)
    | .ok (fila :: filas) =>
      match (fila :: filas).mapM (convertirFila ent.mapeo) with
      | none => ([.migrandoEntidad ent.nombre ent.etiqueta], some .indexError)
      | some registros =>
        match genConsultaNodo ent.etiqueta (ent.mapeo.map Prod.snd) with
        | none => ([.migrandoEntidad ent.nombre ent.etiqueta], some .indexError)
        | some consulta =>
            (.migrandoEntidad ent.nombre ent.etiqueta ::
              .nodosEscritos ent.etiqueta consulta registros ::
              (migrarEntidades db resto).1,
             (migrarEntidades db resto).2)

/-- FASE 2 loop (lines 236-283 of the source). For each relationship in
declaration order: announce it, fetch, skip on empty, convert rows to
`id_origen`/`id_destino` records, resolve endpoints and generate the
statement, write the batch. As in FASE 1, any exception aborts the run. -/
def migrarRelaciones (db : Fuente) (entidades : List Entidad) :
    List Relacion → List Evento × Option MigError
  | [] => ([], none)
  | rel :: resto =>
    match db rel.consulta with
    | .error msg => ([.creandoRelaciones rel.tipo], some (.queryError rel.consulta msg))
    | .ok [] =>
        (.creandoRelaciones rel.tipo :: .sinDatosRelacion rel.nombre ::
          (migrarRelaciones db entidades resto).1,
         (migrarRelaciones db entidades resto).2)
    | .ok (fila :: filas) =>
      match (fila :: filas).mapM convertirFilaRel with
      | none => ([.creandoRelaciones rel.tipo], some .indexError)
      | some registros =>
        match genConsultaRel entidades rel with
        | .error e => ([.creandoRelaciones rel.tipo], some e)
        | .ok consulta =>
            (.creandoRelaciones rel.tipo ::
              .relacionesEscritas rel.tipo consulta registros ::
              (migrarRelaciones db entidades resto).1,
             (migrarRelaciones db entidades resto).2)

/-- FASE 3 loop (lines 286-297 of the source). Per entity,
`list(mapeo_campos.values())[0]` is computed outside the try block, so an
empty field map raises an uncaught `IndexError`; the index statement
itself runs inside a try whose failure is only a warning. -/
def crearIndices : List Entidad → List Evento × Option MigError
  | [] => ([], none)
  | ent :: resto =>
    match (ent.mapeo.map Prod.snd).head? with
    | none => ([], some .indexError)
    | some idCampo =>
        (.indiceCreado ent.etiqueta idCampo :: (crearIndices resto).1,
         (crearIndices resto).2)

/-- FASE 4 (lines 300-312 of the source): one count query per entity
label, then one per relationship type. -/
def eventosEstadisticas (m : Mapeo) : List Evento :=
  m.entidades.map (fun e => .estadisticaNodos e.etiqueta)
    ++ m.relaciones.map (fun r => .estadisticaRelaciones r.tipo)

/-- `ejecutar_migracion_automatica` (lines 161-315 of the source):
an optional clear, then the four phases in textual order; an uncaught
error in a phase ends the run with the trace accumulated so far. -/
def ejecutarMigracionAutomatica (db : Fuente) (m : Mapeo) : List Evento × Option MigError :=
  let evsLimpiar : List Evento := if m.opciones.limpiarAntes then [.limpiado] else []
  match (migrarEntidades db m.entidades).2 with
  | some e => (evsLimpiar ++ (migrarEntidades db m.entidades).1, some e)
  | none =>
    match (migrarRelaciones db m.entidades m.relaciones).2 with
    | some e =>
        (evsLimpiar ++ (migrarEntidades db m.entidades).1
          ++ (migrarRelaciones db m.entidades m.relaciones).1, some e)
    | none =>
      let pIdx := if m.opciones.crearIndices then crearIndices m.entidades else ([], none)
      match pIdx.2 with
      | some e =>
          (evsLimpiar ++ (migrarEntidades db m.entidades).1
            ++ (migrarRelaciones db m.entidades m.relaciones).1 ++ pIdx.1, some e)
      | none =>
          (evsLimpiar ++ (migrarEntidades db m.entidades).1
            ++ (migrarRelaciones db m.entidades m.relaciones).1 ++ pIdx.1
            ++ eventosEstadisticas m, none)

/-- SQL text of manual phase 1 (line 340 of the source). -/
def consultaSQLUsuarios : String := "SELECT id_usuario as id, nombre, email FROM usuarios"

/-- SQL text of manual phase 2 (line 370 of the source). -/
def consultaSQLPublicaciones : String :=
  "SELECT id_publicacion as id, texto_contenido as texto FROM publicaciones"

/-- SQL text of manual phase 3 (lines 399-400 of the source, a triple-quoted
literal spanning two lines). -/
def consultaSQLAmistades : String :=
  "SELECT usuario_solicitante_id as id1, usuario_receptor_id as id2 \n                   FROM amistades WHERE estado = \x27ACEPTADA\x27"

/-- SQL text of manual phase 4 (line 430 of the source). -/
def consultaSQLAutoria : String :=
  "SELECT autor_id as autor, id_publicacion as post FROM publicaciones"

/-- Cypher of manual phase 1 (lines 350-353 of the source). -/
def consultaCypherUsuarios : String :=
  "\n                MERGE (persona:Persona \x7bid_sql: $id\x7d) \n                SET persona.nombre = $nombre, persona.email = $email\n            "

/-- Cypher of manual phase 2 (lines 380-383 of the source). -/
def consultaCypherPosts : String :=
  "\n                MERGE (post:Post \x7bid_sql: $id\x7d) \n                SET post.texto = $texto\n            "

/-- Cypher of manual phase 3 (lines 410-414 of the source). -/
def consultaCypherAmistad : String :=
  "\n                MATCH (persona1:Persona \x7bid_sql: $id1\x7d)\n                MATCH (persona2:Persona \x7bid_sql: $id2\x7d)\n                MERGE (persona1)-[:AMIGO_DE]->(persona2)\n            "

/-- Cypher of manual phase 4 (lines 440-444 of the source). -/
def consultaCypherPublico : String :=
  "\n                MATCH (persona:Persona \x7bid_sql: $autor\x7d)\n                MATCH (post:Post \x7bid_sql: $post\x7d)\n                MERGE (persona)-[:PUBLICO]->(post)\n            "

/-- Manual row conversion, phase 1 (lines 344-347):
`{"id": u[0], "nombre": u[1], "email": u[2]}`. -/
def convertirUsuario : List Valor → Option Registro
  | idV :: nombreV :: emailV :: _ => some [("id", idV), ("nombre", nombreV), ("email", emailV)]
  | _ => none

/-- Manual row conversion, phase 2 (lines 374-377): `{"id": p[0], "texto": p[1]}`. -/
def convertirPost : List Valor → Option Registro
  | idV :: textoV :: _ => some [("id", idV), ("texto", textoV)]
  | _ => none

/-- Manual row conversion, phase 3 (lines 404-407): `{"id1": a[0], "id2": a[1]}`. -/
def convertirAmistad : List Valor → Option Registro
  | v1 :: v2 :: _ => some [("id1", v1), ("id2", v2)]
  | _ => none

/-- Manual row conversion, phase 4 (lines 434-437): `{"autor": p[0], "post": p[1]}`. -/
def convertirAutoria : List Valor → Option Registro
  | v1 :: v2 :: _ => some [("autor", v1), ("post", v2)]
  | _ => none

/-- `ejecutar_migracion_manual` (lines 317-454 of the source): four fixed
phases run in sequence; there is no empty-result skip here (an empty batch
is still written, as a zero-iteration loop), and an uncaught exception in
any phase aborts the run. -/
def ejecutarMigracionManual (db : Fuente) : List Evento × Option MigError :=
  match db consultaSQLUsuarios with
  | .error msg => ([], some (.queryError consultaSQLUsuarios msg))
  | .ok usuarios =>
    match usuarios.mapM convertirUsuario with
    | none => ([], some .indexError)
    | some usuariosDict =>
      let ev1 := Evento.nodosEscritos "Persona" consultaCypherUsuarios usuariosDict
      match db consultaSQLPublicaciones with
      | .error msg => ([ev1], some (.queryError consultaSQLPublicaciones msg))
      | .ok publicaciones =>
        match publicaciones.mapM convertirPost with
        | none => ([ev1], some .indexError)
        | some publicacionesDict =>
          let ev2 := Evento.nodosEscritos "Post" consultaCypherPosts publicacionesDict
          match db consultaSQLAmistades with
          | .error msg => ([ev1, ev2], some (.queryError consultaSQLAmistades msg))
          | .ok amistades =>
            match amistades.mapM convertirAmistad with
            | none => ([ev1, ev2], some .indexError)
            | some amistadesDict =>
              let ev3 := Evento.relacionesEscritas "AMIGO_DE" consultaCypherAmistad amistadesDict
              match db consultaSQLAutoria with
              | .error msg => ([ev1, ev2, ev3], some (.queryError consultaSQLAutoria msg))
              | .ok autoria =>
                match autoria.mapM convertirAutoria with
                | none => ([ev1, ev2, ev3], some .indexError)
                | some autoriaDict =>
                  let ev4 := Evento.relacionesEscritas "PUBLICO" consultaCypherPublico autoriaDict
                  ([ev1, ev2, ev3, ev4], none)

/-- A parsed JSON value, as `json.load` returns it. -/
inductive JValor where
  | nulo
  | booleano (b : Bool)
  | numero (n : Int)
  | cadena (s : String)
  | lista (xs : List JValor)
  | objeto (campos : List (String × JValor))

/-- Python truthiness of a parsed JSON value: `None`, `False`, `0`, `""`,
`[]` and `\x7b\x7d` are falsy, everything else truthy. -/
def truthy : JValor → Bool
  | .nulo => false
  | .booleano b => b
  | .numero n => n != 0
  | .cadena s => s != ""
  | .lista xs => !xs.isEmpty
  | .objeto campos => !campos.isEmpty

/-- The two migration paths of `ejecutar_migracion`. -/
inductive Modo where
  | automatica
  | manual
deriving DecidableEq, Repr

/-- Mode selection (lines 44-50 and 156-159 of the source): a missing
`mapeo_migracion.json` leaves `MAPEO_MIGRACION = None`; `ejecutar_migracion`
then tests `if MAPEO_MIGRACION:` — Python truthiness of the loaded value,
not mere presence. -/
def elegirModo : Option JValor → Modo
  | none => .manual
  | some v => if truthy v then .automatica else .manual

/-- `ejecutar_migracion` (lines 144-159): dispatch on the loaded mapping.
`m` is the structured decoding of the mapping JSON, used only on the
automatic path. -/
def ejecutarMigracion (db : Fuente) (cfg : Option JValor) (m : Mapeo) :
    List Evento × Option MigError :=
  match elegirModo cfg with
  | .automatica => ejecutarMigracionAutomatica db m
  | .manual => ejecutarMigracionManual db

/-- Outcome of one console-mode process run: the exit code, the event
trace, and the migration error that the `except` block caught and printed
(without re-raising). -/
structure ResultadoProceso where
  codigoSalida : Nat
  eventos : List Evento
  errorCapturado : Option MigError
deriving DecidableEq, Repr

/-- The console entry point (lines 539-554 plus `__init__` lines 86-88 of
the source): a connection failure in the constructor calls `sys.exit(1)`;
otherwise the migration runs inside `try/except Exception`, the handler
only prints the error, and the script falls off the end — a normal exit
with code 0 whether or not the migration failed. -/
def mainConsola (conexionOk : Bool) (db : Fuente) (cfg : Option JValor) (m : Mapeo) :
    ResultadoProceso :=
  if conexionOk then
    ⟨0, (ejecutarMigracion db cfg m).1, (ejecutarMigracion db cfg m).2⟩
  else
    ⟨1, [], none⟩

/-- Phase rank of an event: clearing, entity phase, relationship phase,
index phase, statistics phase. -/
def rango : Evento → Nat
  | .limpiado => 0
  | .migrandoEntidad _ _ => 1
  | .sinDatosEntidad _ => 1
  | .nodosEscritos _ _ _ => 1
  | .creandoRelaciones _ => 2
  | .sinDatosRelacion _ => 2
  | .relacionesEscritas _ _ _ => 2
  | .indiceCreado _ _ => 3
  | .estadisticaNodos _ => 4
  | .estadisticaRelaciones _ => 4

/-- The entity name announced by a `migrandoEntidad` event (the line-187
progress print). -/
def nombreAnunciado : Evento → Option String
  | .migrandoEntidad nombre _ => some nombre
  | _ => none

/-- The relation type announced by a `creandoRelaciones` event (the
line-240 progress print). -/
def tipoAnunciado : Evento → Option String
  | .creandoRelaciones tipo => some tipo
  | _ => none

/-- The label (for a node batch) or relation type (for a relationship
batch) of a write event. -/
def faseEscrita : Evento → Option String
  | .nodosEscritos etiqueta _ _ => some etiqueta
  | .relacionesEscritas tipo _ _ => some tipo
  | _ => none

/-- A trace block is ordered from rank `c`: internally non-decreasing in
rank, with every event of rank at least `c`. -/
def ordenadoDesde (c : Nat) (l : List Evento) : Prop :=
  l.Pairwise (fun a b => rango a ≤ rango b) ∧ ∀ ev ∈ l, c ≤ rango ev

lemma dictInsert_fresh (d : Registro) (k : String) (v : Valor)
    (h : ∀ p ∈ d, p.1 ≠ k) : dictInsert d k v = d ++ [(k, v)] := by
  have hany : d.any (fun p => p.1 == k) = false := by
    simp only [List.any_eq_false]
    intro p hp
    simpa using h p hp
  simp [dictInsert, hany]

lemma convertirFilaGo_zip :
    ∀ (mapeo : List (String × String)) (fila : List Valor) (acc : Registro),
      (mapeo.map Prod.snd).Nodup → mapeo.length ≤ fila.length →
      (∀ p ∈ acc, p.1 ∉ mapeo.map Prod.snd) →
      convertirFilaGo mapeo fila acc = some (acc ++ (mapeo.map Prod.snd).zip fila) := by
  intro mapeo
  induction mapeo with
  | nil => intro fila acc _ _ _; simp [convertirFilaGo]
  | cons par resto ih =>
    intro fila acc hnodup hlen hacc
    obtain ⟨s, t⟩ := par
    cases fila with
    | nil => simp at hlen
    | cons v vs =>
      have hfresh : ∀ p ∈ acc, p.1 ≠ t := by
        intro p hp
        have hm := hacc p hp
        simp only [List.map_cons, List.mem_cons] at hm
        exact fun hq => hm (Or.inl hq)
      have hnodup' : (resto.map Prod.snd).Nodup := by
        simpa using hnodup.of_cons
      have htresto : t ∉ resto.map Prod.snd := by
        simp only [List.map_cons, List.nodup_cons] at hnodup
        exact hnodup.1
      have hlen' : resto.length ≤ vs.length := by
        simpa using hlen
      have hacc' : ∀ p ∈ acc ++ [(t, v)], p.1 ∉ resto.map Prod.snd := by
        intro p hp
        rcases List.mem_append.mp hp with hp | hp
        · have hm := hacc p hp
          simp only [List.map_cons, List.mem_cons] at hm
          exact fun hq => hm (Or.inr hq)
        · simp only [List.mem_singleton] at hp
          subst hp
          exact htresto
      calc convertirFilaGo ((s, t) :: resto) (v :: vs) acc
          = convertirFilaGo resto vs (dictInsert acc t v) := rfl
        _ = convertirFilaGo resto vs (acc ++ [(t, v)]) := by
              rw [dictInsert_fresh acc t v hfresh]
        _ = some ((acc ++ [(t, v)]) ++ (resto.map Prod.snd).zip vs) :=
              ih vs (acc ++ [(t, v)]) hnodup' hlen' hacc'
        _ = some (acc ++ (((s, t) :: resto).map Prod.snd).zip (v :: vs)) := by
              simp

/-- Claim C1: for an entity mapping with a non-empty field map, the
generated node statement is exactly the rendering of an upsert that
MERGEs on one single property — the first mapped one — and then SETs
every mapped property, the identity property included. -/
theorem genConsultaNodo_mergeUno_setTodos (etiqueta idCampo : String)
    (restoCampos : List String) :
    genConsultaNodo etiqueta (idCampo :: restoCampos)
      = some (renderNodeUpsert ⟨etiqueta, idCampo, idCampo :: restoCampos⟩) := rfl

/-- Claim C2, counterexample: with the field map `a ↦ x, b ↦ x` (two
entries, one repeated target name) and the row `(0, 1)`, the produced
record holds a single property, not one per field-map entry, and the
first entry's column value is lost. -/
theorem convertirFila_colision_cex :
    convertirFila [("a", "x"), ("b", "x")] [Valor.entero 0, Valor.entero 1]
      = some [("x", Valor.entero 1)]
    ∧ (convertirFila [("a", "x"), ("b", "x")] [Valor.entero 0, Valor.entero 1]).map List.length
      ≠ some 2 := by decide

/-- Claim C2 (amended): when the target property names are pairwise
distinct and the row has at least one column per field-map entry,
row-to-record conversion yields exactly one property per entry, named by
the target name and holding the column value at the entry's position —
no extra and no missing properties. -/
theorem convertirFila_fidelidad (mapeo : List (String × String)) (fila : List Valor)
    (hnodup : (mapeo.map Prod.snd).Nodup) (hlen : mapeo.length ≤ fila.length) :
    convertirFila mapeo fila = some ((mapeo.map Prod.snd).zip fila) := by
  have h := convertirFilaGo_zip mapeo fila [] hnodup hlen (by intro p hp; cases hp)
  simpa [convertirFila] using h

/-- Witness for the amended C2 at a concrete mapping and row. -/
theorem convertirFila_fidelidad_witness :
    (([("id_usuario", "id"), ("nombre", "nombre")].map Prod.snd).Nodup
      ∧ [("id_usuario", "id"), ("nombre", "nombre")].length
          ≤ [Valor.entero 7, Valor.texto "Ana", Valor.texto "a@x"].length)
    ∧ convertirFila [("id_usuario", "id"), ("nombre", "nombre")]
        [Valor.entero 7, Valor.texto "Ana", Valor.texto "a@x"]
      = some [("id", Valor.entero 7), ("nombre", Valor.texto "Ana")] :=
  ⟨⟨by decide, by decide⟩,
    convertirFila_fidelidad [("id_usuario", "id"), ("nombre", "nombre")]
      [Valor.entero 7, Valor.texto "Ana", Valor.texto "a@x"] (by decide) (by decide)⟩

/-- Claim C10: relationship row conversion reads exactly the columns at
positions 0 and 1 — further columns are ignored — and on a row with
fewer than two columns it raises an index error instead of producing a
record. -/
theorem convertirFilaRel_posiciones :
    (∀ (v0 v1 : Valor) (resto : List Valor),
       convertirFilaRel (v0 :: v1 :: resto)
         = some [("id_origen", v0), ("id_destino", v1)])
    ∧ (∀ fila : List Valor, fila.length < 2 → convertirFilaRel fila = none) := by
  constructor
  · intro v0 v1 resto; rfl
  · intro fila h
    cases fila with
    | nil => rfl
    | cons v0 resto =>
      cases resto with
      | nil => rfl
      | cons v1 r => simp at h; omega

/-- Witness for C10 at concrete rows, with and without extra columns. -/
theorem convertirFilaRel_posiciones_witness :
    convertirFilaRel [Valor.entero 1, Valor.entero 2, Valor.entero 3]
      = some [("id_origen", Valor.entero 1), ("id_destino", Valor.entero 2)]
    ∧ ([Valor.entero 5].length < 2 ∧ convertirFilaRel [Valor.entero 5] = none) :=
  ⟨convertirFilaRel_posiciones.1 (Valor.entero 1) (Valor.entero 2) [Valor.entero 3],
   by decide, convertirFilaRel_posiciones.2 [Valor.entero 5] (by decide)⟩

/-- Claim C9, counterexample: with the connections up and a source whose
every query raises, the run fails (the error is caught and printed by the
top-level handler) yet the process exits with code 0, because the
`except` block neither re-raises nor calls `sys.exit`. -/
theorem mainConsola_falloSaleCero_cex :
    (mainConsola true (fun _ => .error "caida") none
        ⟨[], [], ⟨false, false, false⟩⟩).codigoSalida = 0
    ∧ (mainConsola true (fun _ => .error "caida") none
        ⟨[], [], ⟨false, false, false⟩⟩).errorCapturado
      = some (.queryError consultaSQLUsuarios "caida") := by decide

/-- Claim C9 (amended): the console entry point exits non-zero (code 1)
exactly when the constructor fails to connect to the stores; once
connected, the process exits with code 0 whether the migration finished
or failed, because the top-level handler only prints the caught error. -/
theorem mainConsola_codigoSoloConexion (conexionOk : Bool) (db : Fuente)
    (cfg : Option JValor) (m : Mapeo) :
    (mainConsola conexionOk db cfg m).codigoSalida
      = if conexionOk then 0 else 1 := by
  cases conexionOk <;> rfl

/-- Claim C3, counterexample: two declared entities, the first one's
query raising; the run aborts at the first entity, the second is never
attempted (its announcement never happens) and no failure record is kept
beyond the propagated exception. -/
theorem consultaFallida_abortaCorrida_cex :
    ejecutarMigracionAutomatica
        (fun q => if q = "Q1" then .error "caida" else .ok [[Valor.entero 1]])
        ⟨[⟨"e1", "E1", "Q1", [("a", "x")]⟩, ⟨"e2", "E2", "Q2", [("b", "y")]⟩], [],
          ⟨false, false, false⟩⟩
      = ([.migrandoEntidad "e1" "E1"], some (.queryError "Q1" "caida"))
    ∧ Evento.migrandoEntidad "e2" "E2"
        ∉ (ejecutarMigracionAutomatica
            (fun q => if q = "Q1" then .error "caida" else .ok [[Valor.entero 1]])
            ⟨[⟨"e1", "E1", "Q1", [("a", "x")]⟩, ⟨"e2", "E2", "Q2", [("b", "y")]⟩], [],
              ⟨false, false, false⟩⟩).1 := by decide

/-- Claim C3 (amended): a source-query failure on one entity is not
caught anywhere in the entity loop — the exception propagates, the run
aborts at that entity, and the entities declared after it are not
attempted (the result does not depend on them at all). -/
theorem consultaFallida_propaga (db : Fuente) (ent : Entidad) (resto : List Entidad)
    (msg : String) (h : db ent.consulta = .error msg) :
    migrarEntidades db (ent :: resto)
      = ([.migrandoEntidad ent.nombre ent.etiqueta],
         some (.queryError ent.consulta msg)) := by
  simp [migrarEntidades, h]

/-- Witness for the amended C3 at a concrete source and entity list. -/
theorem consultaFallida_propaga_witness :
    (fun q => if q = "Q0" then Except.error "caida"
              else Except.ok ([] : List (List Valor))) "Q0" = Except.error "caida"
    ∧ migrarEntidades
        (fun q => if q = "Q0" then Except.error "caida" else Except.ok [])
        [⟨"u", "U", "Q0", [("c", "d")]⟩]
      = ([.migrandoEntidad "u" "U"], some (.queryError "Q0" "caida")) :=
  ⟨by rfl,
   consultaFallida_propaga _ ⟨"u", "U", "Q0", [("c", "d")]⟩ [] "caida" (by rfl)⟩

/-- Claim C7: an entity or relationship whose query returns zero rows
does not fail the run — the empty result is logged, no write happens for
that unit, and the loop continues with the remaining units, whose
outcome (trace and error) is exactly what it would have been alone. -/
theorem sinDatos_continua (db : Fuente) (ent : Entidad) (restoE : List Entidad)
    (entidades : List Entidad) (rel : Relacion) (restoR : List Relacion)
    (hE : db ent.consulta = .ok []) (hR : db rel.consulta = .ok []) :
    migrarEntidades db (ent :: restoE)
      = (.migrandoEntidad ent.nombre ent.etiqueta :: .sinDatosEntidad ent.nombre ::
          (migrarEntidades db restoE).1, (migrarEntidades db restoE).2)
    ∧ migrarRelaciones db entidades (rel :: restoR)
      = (.creandoRelaciones rel.tipo :: .sinDatosRelacion rel.nombre ::
          (migrarRelaciones db entidades restoR).1,
         (migrarRelaciones db entidades restoR).2) := by
  constructor
  · simp [migrarEntidades, hE]
  · simp [migrarRelaciones, hR]

/-- Witness for C7 at a source with empty results everywhere. -/
theorem sinDatos_continua_witness :
    ((fun _ => Except.ok []) : Fuente) "QE" = Except.ok ([] : List (List Valor))
    ∧ migrarEntidades (fun _ => Except.ok []) [⟨"e", "E", "QE", [("a", "x")]⟩]
        = ([.migrandoEntidad "e" "E", .sinDatosEntidad "e"], none)
    ∧ migrarRelaciones (fun _ => Except.ok []) [] [⟨"r", "R", "QR", "E", "E"⟩]
        = ([.creandoRelaciones "R", .sinDatosRelacion "r"], none) :=
  ⟨by rfl,
   (sinDatos_continua (fun _ => Except.ok []) ⟨"e", "E", "QE", [("a", "x")]⟩ [] []
      ⟨"r", "R", "QR", "E", "E"⟩ [] (by rfl) (by rfl)).1,
   (sinDatos_continua (fun _ => Except.ok []) ⟨"e", "E", "QE", [("a", "x")]⟩ [] []
      ⟨"r", "R", "QR", "E", "E"⟩ [] (by rfl) (by rfl)).2⟩

/-- Claim C4, counterexample: a spec violating the invariants (its second
entity has an empty field map) is accepted with no `SpecValidationError`
— such an error does not exist in the code — and is used for a partial
run: the first entity's rows are queried and written before the
violation surfaces as an uncaught `IndexError` at the second entity. -/
theorem sinValidacion_corridaParcial_cex :
    (ejecutarMigracionAutomatica (fun _ => .ok [[Valor.entero 1]])
        ⟨[⟨"e1", "E1", "Q1", [("a", "x")]⟩, ⟨"e2", "E2", "Q2", []⟩], [],
          ⟨false, false, false⟩⟩).2
      = some MigError.indexError
    ∧ (ejecutarMigracionAutomatica (fun _ => .ok [[Valor.entero 1]])
        ⟨[⟨"e1", "E1", "Q1", [("a", "x")]⟩, ⟨"e2", "E2", "Q2", []⟩], [],
          ⟨false, false, false⟩⟩).1.filterMap faseEscrita
      = ["E1"] := by decide

/-- Claim C4 (amended): no validation happens at load time; the two spec
invariants only surface as uncaught exceptions in the middle of a run —
an entity with an empty field map raises `IndexError` when its statement
is generated (after its query already ran), and a relationship whose
origin label matches no declared entity raises `StopIteration` when its
endpoints are resolved. -/
theorem especInvalida_fallaEnMedio :
    (∀ (db : Fuente) (ent : Entidad) (resto : List Entidad)
       (fila : List Valor) (filas : List (List Valor)),
       ent.mapeo = [] → db ent.consulta = .ok (fila :: filas) →
       migrarEntidades db (ent :: resto)
         = ([.migrandoEntidad ent.nombre ent.etiqueta], some .indexError))
    ∧ (∀ (entidades : List Entidad) (rel : Relacion),
       entidades.find? (fun e => e.etiqueta == rel.nodoOrigen) = none →
       genConsultaRel entidades rel = .error .stopIteration) := by
  constructor
  · intro db ent resto fila filas hmapeo hdb
    simp [migrarEntidades, hdb, hmapeo, genConsultaNodo]
    split <;> rfl
  · intro entidades rel h
    simp [genConsultaRel, h]

/-- Witness for the amended C4 at a concrete invalid spec. -/
theorem especInvalida_fallaEnMedio_witness :
    ((⟨"e", "E", "Q", []⟩ : Entidad).mapeo = []
      ∧ ((fun _ => Except.ok [[Valor.entero 1]]) : Fuente) "Q"
          = Except.ok [[Valor.entero 1]]
      ∧ migrarEntidades (fun _ => Except.ok [[Valor.entero 1]]) [⟨"e", "E", "Q", []⟩]
          = ([.migrandoEntidad "e" "E"], some .indexError))
    ∧ (([] : List Entidad).find?
          (fun e => e.etiqueta == (⟨"r", "R", "QR", "X", "X"⟩ : Relacion).nodoOrigen) = none
      ∧ genConsultaRel [] ⟨"r", "R", "QR", "X", "X"⟩ = .error .stopIteration) :=
  ⟨⟨rfl, rfl,
    especInvalida_fallaEnMedio.1 (fun _ => Except.ok [[Valor.entero 1]])
      ⟨"e", "E", "Q", []⟩ [] [Valor.entero 1] [] rfl rfl⟩,
   ⟨rfl, especInvalida_fallaEnMedio.2 [] ⟨"r", "R", "QR", "X", "X"⟩ rfl⟩⟩

/-- Claim C8, counterexample: a mapping file that is present but holds a
falsy JSON value — here the empty object — also selects the legacy
manual mode, because the dispatch tests Python truthiness of the loaded
value, not the file's presence. -/
theorem archivoFalsyModoManual_cex :
    elegirModo (some (JValor.objeto [])) = Modo.manual
    ∧ Modo.manual ≠ Modo.automatica := by
  exact ⟨rfl, by decide⟩

/-- Claim C8 (amended): a missing mapping file selects the legacy mode,
whose successful runs write exactly the four hard-coded phases in order
— Persona nodes, Post nodes, AMIGO_DE relationships, PUBLICO
relationships; a present mapping file selects the declarative mode only
when its loaded content is truthy (a present but falsy file — empty
object, empty array, null, false, 0 or empty string — also falls back to
the legacy mode). -/
theorem modoYFasesLegado :
    elegirModo none = Modo.manual
    ∧ (∀ v : JValor, truthy v = true → elegirModo (some v) = Modo.automatica)
    ∧ (∀ (db : Fuente) (evs : List Evento),
         ejecutarMigracionManual db = (evs, none) →
         evs.filterMap faseEscrita = ["Persona", "Post", "AMIGO_DE", "PUBLICO"]) := by
  refine ⟨rfl, ?_, ?_⟩
  · intro v hv
    simp [elegirModo, hv]
  · intro db evs h
    unfold ejecutarMigracionManual at h
    repeat' split at h
    all_goals simp at h
    subst h
    rfl

/-- Witness for the amended C8: a truthy mapping value selects the
declarative mode, and a concrete legacy run writes the four phases. -/
theorem modoYFasesLegado_witness :
    truthy (JValor.objeto [("entidades", JValor.lista [])]) = true
    ∧ elegirModo (some (JValor.objeto [("entidades", JValor.lista [])])) = Modo.automatica
    ∧ ejecutarMigracionManual (fun _ => Except.ok [])
        = ((ejecutarMigracionManual (fun _ => Except.ok [])).1, none)
    ∧ (ejecutarMigracionManual (fun _ => Except.ok [])).1.filterMap faseEscrita
        = ["Persona", "Post", "AMIGO_DE", "PUBLICO"] :=
  ⟨rfl, modoYFasesLegado.2.1 _ rfl, by rfl,
   modoYFasesLegado.2.2 (fun _ => Except.ok []) _ (by rfl)⟩

lemma rango_migrarEntidades (db : Fuente) :
    ∀ ents : List Entidad, ∀ ev ∈ (migrarEntidades db ents).1, rango ev = 1 := by
  intro ents
  induction ents with
  | nil => intro ev hev; simp [migrarEntidades] at hev
  | cons ent resto ih =>
    intro ev hev
    simp only [migrarEntidades] at hev
    repeat' split at hev
    all_goals
      first
      | (simp only [List.mem_singleton] at hev; subst hev; rfl)
      | (simp only [List.mem_cons] at hev
         rcases hev with h | h | h
         · subst h; rfl
         · subst h; rfl
         · exact ih ev h)

lemma rango_migrarRelaciones (db : Fuente) (entidades : List Entidad) :
    ∀ rels : List Relacion, ∀ ev ∈ (migrarRelaciones db entidades rels).1, rango ev = 2 := by
  intro rels
  induction rels with
  | nil => intro ev hev; simp [migrarRelaciones] at hev
  | cons rel resto ih =>
    intro ev hev
    simp only [migrarRelaciones] at hev
    repeat' split at hev
    all_goals
      first
      | (simp only [List.mem_singleton] at hev; subst hev; rfl)
      | (simp only [List.mem_cons] at hev
         rcases hev with h | h | h
         · subst h; rfl
         · subst h; rfl
         · exact ih ev h)

lemma rango_crearIndices :
    ∀ ents : List Entidad, ∀ ev ∈ (crearIndices ents).1, rango ev = 3 := by
  intro ents
  induction ents with
  | nil => intro ev hev; simp [crearIndices] at hev
  | cons ent resto ih =>
    intro ev hev
    simp only [crearIndices] at hev
    repeat' split at hev
    all_goals
      first
      | exact absurd hev (List.not_mem_nil ev)
      | (simp only [List.mem_cons] at hev
         rcases hev with h | h
         · subst h; rfl
         · exact ih ev h)

lemma rango_estadisticas (m : Mapeo) :
    ∀ ev ∈ eventosEstadisticas m, rango ev = 4 := by
  intro ev hev
  rcases List.mem_append.mp hev with h | h
  · obtain ⟨e, _, rfl⟩ := List.mem_map.mp h
    rfl
  · obtain ⟨r, _, rfl⟩ := List.mem_map.mp h
    rfl

lemma pairwise_rango_const (l : List Evento) (c : Nat) (h : ∀ ev ∈ l, rango ev = c) :
    l.Pairwise (fun a b => rango a ≤ rango b) := by
  induction l with
  | nil => exact List.Pairwise.nil
  | cons x xs ih =>
    refine List.Pairwise.cons ?_ (ih ?_)
    · intro b hb
      rw [h x (List.mem_cons_self x xs), h b (List.mem_cons_of_mem x hb)]
    · intro ev hm
      exact h ev (List.mem_cons_of_mem x hm)

lemma ordenadoDesde_const (c d : Nat) (l : List Evento) (hcd : c ≤ d)
    (h : ∀ ev ∈ l, rango ev = d) : ordenadoDesde c l := by
  refine ⟨pairwise_rango_const l d h, ?_⟩
  intro ev hm
  rw [h ev hm]
  exact hcd

lemma ordenadoDesde_append (c d : Nat) (l₁ l₂ : List Evento) (hcd : c ≤ d)
    (h₁ : ∀ ev ∈ l₁, rango ev = d) (h₂ : ordenadoDesde d l₂) :
    ordenadoDesde c (l₁ ++ l₂) := by
  constructor
  · refine List.pairwise_append.mpr ⟨pairwise_rango_const l₁ d h₁, h₂.1, ?_⟩
    intro a ha b hb
    rw [h₁ a ha]
    exact h₂.2 b hb
  · intro ev hm
    rcases List.mem_append.mp hm with hm | hm
    · rw [h₁ ev hm]
      exact hcd
    · exact le_trans hcd (h₂.2 ev hm)

lemma ordenado_traza (db : Fuente) (m : Mapeo) :
    ordenadoDesde 0 (ejecutarMigracionAutomatica db m).1 := by
  have hL : ∀ ev ∈ (if m.opciones.limpiarAntes then [Evento.limpiado] else []), rango ev = 0 := by
    split
    · intro ev hm
      simp only [List.mem_singleton] at hm
      subst hm; rfl
    · intro ev hm
      exact absurd hm (List.not_mem_nil ev)
  have hE := rango_migrarEntidades db m.entidades
  have hR := rango_migrarRelaciones db m.entidades m.relaciones
  have hI : ∀ ev ∈ (if m.opciones.crearIndices then crearIndices m.entidades
      else ([], none)).1, rango ev = 3 := by
    split
    · exact rango_crearIndices m.entidades
    · intro ev hm
      exact absurd hm (List.not_mem_nil ev)
  have hS := rango_estadisticas m
  simp only [ejecutarMigracionAutomatica]
  set L := (if m.opciones.limpiarAntes then [Evento.limpiado] else []) with hLdef
  set pIdx := (if m.opciones.crearIndices then crearIndices m.entidades
      else (([] : List Evento), (none : Option MigError))) with hIdef
  repeat' split
  · exact ordenadoDesde_append 0 0 _ _ (Nat.le_refl 0) hL
      (ordenadoDesde_const 0 1 _ (by omega) hE)
  · simp only [List.append_assoc]
    exact ordenadoDesde_append 0 0 _ _ (Nat.le_refl 0) hL
      (ordenadoDesde_append 0 1 _ _ (by omega) hE
        (ordenadoDesde_const 1 2 _ (by omega) hR))
  · simp only [List.append_assoc]
    exact ordenadoDesde_append 0 0 _ _ (Nat.le_refl 0) hL
      (ordenadoDesde_append 0 1 _ _ (by omega) hE
        (ordenadoDesde_append 1 2 _ _ (by omega) hR
          (ordenadoDesde_const 2 3 _ (by omega) hI)))
  · simp only [List.append_assoc]
    exact ordenadoDesde_append 0 0 _ _ (Nat.le_refl 0) hL
      (ordenadoDesde_append 0 1 _ _ (by omega) hE
        (ordenadoDesde_append 1 2 _ _ (by omega) hR
          (ordenadoDesde_append 2 3 _ _ (by omega) hI
            (ordenadoDesde_const 3 4 _ (by omega) hS))))

lemma nombres_migrarEntidades (db : Fuente) :
    ∀ ents : List Entidad, ∃ k,
      (migrarEntidades db ents).1.filterMap nombreAnunciado
        = (ents.map Entidad.nombre).take k := by
  intro ents
  induction ents with
  | nil => exact ⟨0, by simp [migrarEntidades]⟩
  | cons ent resto ih =>
    obtain ⟨k, hk⟩ := ih
    cases hdb : db ent.consulta with
    | error msg =>
      refine ⟨1, ?_⟩
      simp [migrarEntidades, hdb, nombreAnunciado]
    | ok datos =>
      cases datos with
      | nil =>
        refine ⟨k + 1, ?_⟩
        simp [migrarEntidades, hdb, nombreAnunciado, hk]
      | cons fila filas =>
        cases hm : List.mapM.loop (convertirFila ent.mapeo) (fila :: filas) [] with
        | none =>
          refine ⟨1, ?_⟩
          simp [migrarEntidades, hdb, hm, nombreAnunciado]
        | some registros =>
          cases hg : genConsultaNodo ent.etiqueta (ent.mapeo.map Prod.snd) with
          | none =>
            refine ⟨1, ?_⟩
            simp [migrarEntidades, hdb, hm, hg, nombreAnunciado]
          | some consulta =>
            refine ⟨k + 1, ?_⟩
            simp [migrarEntidades, hdb, hm, hg, nombreAnunciado, hk]

lemma tipos_migrarRelaciones (db : Fuente) (entidades : List Entidad) :
    ∀ rels : List Relacion, ∃ j,
      (migrarRelaciones db entidades rels).1.filterMap tipoAnunciado
        = (rels.map Relacion.tipo).take j := by
  intro rels
  induction rels with
  | nil => exact ⟨0, by simp [migrarRelaciones]⟩
  | cons rel resto ih =>
    obtain ⟨j, hj⟩ := ih
    cases hdb : db rel.consulta with
    | error msg =>
      refine ⟨1, ?_⟩
      simp [migrarRelaciones, hdb, tipoAnunciado]
    | ok datos =>
      cases datos with
      | nil =>
        refine ⟨j + 1, ?_⟩
        simp [migrarRelaciones, hdb, tipoAnunciado, hj]
      | cons fila filas =>
        cases hm : List.mapM.loop convertirFilaRel (fila :: filas) [] with
        | none =>
          refine ⟨1, ?_⟩
          simp [migrarRelaciones, hdb, hm, tipoAnunciado]
        | some registros =>
          cases hg : genConsultaRel entidades rel with
          | error e =>
            refine ⟨1, ?_⟩
            simp [migrarRelaciones, hdb, hm, hg, tipoAnunciado]
          | ok consulta =>
            refine ⟨j + 1, ?_⟩
            simp [migrarRelaciones, hdb, hm, hg, tipoAnunciado, hj]

lemma filterMap_nombre_nil (l : List Evento) (h : ∀ ev ∈ l, rango ev ≠ 1) :
    l.filterMap nombreAnunciado = [] := by
  rw [List.filterMap_eq_nil_iff]
  intro ev hm
  cases ev <;> first | rfl | exact absurd rfl (h _ hm)

lemma filterMap_tipo_nil (l : List Evento) (h : ∀ ev ∈ l, rango ev ≠ 2) :
    l.filterMap tipoAnunciado = [] := by
  rw [List.filterMap_eq_nil_iff]
  intro ev hm
  cases ev <;> first | rfl | exact absurd rfl (h _ hm)

lemma nodosEscritos_de_entidades (db : Fuente) :
    ∀ (ents : List Entidad) (etiqueta consulta : String) (registros : List Registro),
      Evento.nodosEscritos etiqueta consulta registros ∈ (migrarEntidades db ents).1 →
      ∃ ent, ent ∈ ents ∧ etiqueta = ent.etiqueta
        ∧ genConsultaNodo ent.etiqueta (ent.mapeo.map Prod.snd) = some consulta := by
  intro ents
  induction ents with
  | nil => intro et c r h; simp [migrarEntidades] at h
  | cons ent resto ih =>
    intro et c r h
    cases hdb : db ent.consulta with
    | error msg => simp [migrarEntidades, hdb] at h
    | ok datos =>
      cases datos with
      | nil =>
        simp only [migrarEntidades, hdb, List.mem_cons] at h
        rcases h with h | h | h
        · exact absurd h (by simp)
        · exact absurd h (by simp)
        · obtain ⟨e, he, h1, h2⟩ := ih et c r h
          exact ⟨e, List.mem_cons_of_mem ent he, h1, h2⟩
      | cons fila filas =>
        cases hm : List.mapM.loop (convertirFila ent.mapeo) (fila :: filas) [] with
        | none => simp [migrarEntidades, hdb, hm] at h
        | some regs =>
          cases hg : genConsultaNodo ent.etiqueta (ent.mapeo.map Prod.snd) with
          | none => simp [migrarEntidades, hdb, hm, hg] at h
          | some consulta2 =>
            simp [migrarEntidades, hdb, hm, hg] at h
            rcases h with ⟨h1, h2, h3⟩ | h
            · subst h1
              subst h2
              exact ⟨ent, List.mem_cons_self ent resto, rfl, hg⟩
            · obtain ⟨e, he, h1, h2⟩ := ih et c r h
              exact ⟨e, List.mem_cons_of_mem ent he, h1, h2⟩

lemma relacionesEscritas_de_relaciones (db : Fuente) (entidades : List Entidad) :
    ∀ (rels : List Relacion) (tipo consulta : String) (registros : List Registro),
      Evento.relacionesEscritas tipo consulta registros
          ∈ (migrarRelaciones db entidades rels).1 →
      ∃ rel, rel ∈ rels ∧ tipo = rel.tipo
        ∧ genConsultaRel entidades rel = .ok consulta := by
  intro rels
  induction rels with
  | nil => intro t c r h; simp [migrarRelaciones] at h
  | cons rel resto ih =>
    intro t c r h
    cases hdb : db rel.consulta with
    | error msg => simp [migrarRelaciones, hdb] at h
    | ok datos =>
      cases datos with
      | nil =>
        simp only [migrarRelaciones, hdb, List.mem_cons] at h
        rcases h with h | h | h
        · exact absurd h (by simp)
        · exact absurd h (by simp)
        · obtain ⟨e, he, h1, h2⟩ := ih t c r h
          exact ⟨e, List.mem_cons_of_mem rel he, h1, h2⟩
      | cons fila filas =>
        cases hm : List.mapM.loop convertirFilaRel (fila :: filas) [] with
        | none => simp [migrarRelaciones, hdb, hm] at h
        | some regs =>
          cases hg : genConsultaRel entidades rel with
          | error e => simp [migrarRelaciones, hdb, hm, hg] at h
          | ok consulta2 =>
            simp [migrarRelaciones, hdb, hm, hg] at h
            rcases h with ⟨h1, h2, h3⟩ | h
            · subst h1
              subst h2
              exact ⟨rel, List.mem_cons_self rel resto, rfl, hg⟩
            · obtain ⟨e, he, h1, h2⟩ := ih t c r h
              exact ⟨e, List.mem_cons_of_mem rel he, h1, h2⟩

lemma nombres_traza (db : Fuente) (m : Mapeo) :
    ∃ k, (ejecutarMigracionAutomatica db m).1.filterMap nombreAnunciado
      = (m.entidades.map Entidad.nombre).take k := by
  obtain ⟨k, hk⟩ := nombres_migrarEntidades db m.entidades
  have hL : (if m.opciones.limpiarAntes then [Evento.limpiado] else []).filterMap
      nombreAnunciado = [] := by
    split <;> rfl
  have hR : (migrarRelaciones db m.entidades m.relaciones).1.filterMap nombreAnunciado = [] :=
    filterMap_nombre_nil _ (fun ev hm => by
      rw [rango_migrarRelaciones db m.entidades m.relaciones ev hm]; omega)
  have hI : (if m.opciones.crearIndices then crearIndices m.entidades
      else ([], none)).1.filterMap nombreAnunciado = [] := by
    split
    · exact filterMap_nombre_nil _ (fun ev hm => by
        rw [rango_crearIndices _ ev hm]; omega)
    · rfl
  have hS : (eventosEstadisticas m).filterMap nombreAnunciado = [] :=
    filterMap_nombre_nil _ (fun ev hm => by rw [rango_estadisticas m ev hm]; omega)
  refine ⟨k, ?_⟩
  simp only [ejecutarMigracionAutomatica]
  set L := (if m.opciones.limpiarAntes then [Evento.limpiado] else []) with hLdef
  set pIdx := (if m.opciones.crearIndices then crearIndices m.entidades
      else (([] : List Evento), (none : Option MigError))) with hIdef
  repeat' split
  all_goals simp [List.filterMap_append, hL, hR, hI, hS, hk]

lemma tipos_traza (db : Fuente) (m : Mapeo) :
    ∃ j, (ejecutarMigracionAutomatica db m).1.filterMap tipoAnunciado
      = (m.relaciones.map Relacion.tipo).take j := by
  obtain ⟨j, hj⟩ := tipos_migrarRelaciones db m.entidades m.relaciones
  have hL : (if m.opciones.limpiarAntes then [Evento.limpiado] else []).filterMap
      tipoAnunciado = [] := by
    split <;> rfl
  have hE : (migrarEntidades db m.entidades).1.filterMap tipoAnunciado = [] :=
    filterMap_tipo_nil _ (fun ev hm => by
      rw [rango_migrarEntidades db m.entidades ev hm]; omega)
  have hI : (if m.opciones.crearIndices then crearIndices m.entidades
      else ([], none)).1.filterMap tipoAnunciado = [] := by
    split
    · exact filterMap_tipo_nil _ (fun ev hm => by
        rw [rango_crearIndices _ ev hm]; omega)
    · rfl
  have hS : (eventosEstadisticas m).filterMap tipoAnunciado = [] :=
    filterMap_tipo_nil _ (fun ev hm => by rw [rango_estadisticas m ev hm]; omega)
  simp only [ejecutarMigracionAutomatica]
  set L := (if m.opciones.limpiarAntes then [Evento.limpiado] else []) with hLdef
  set pIdx := (if m.opciones.crearIndices then crearIndices m.entidades
      else (([] : List Evento), (none : Option MigError))) with hIdef
  repeat' split
  · exact ⟨0, by simp [List.filterMap_append, hL, hE]⟩
  · exact ⟨j, by simp [List.filterMap_append, hL, hE, hj]⟩
  · exact ⟨j, by simp [List.filterMap_append, hL, hE, hI, hj]⟩
  · exact ⟨j, by simp [List.filterMap_append, hL, hE, hI, hS, hj]⟩

lemma limpiado_primero (db : Fuente) (m : Mapeo)
    (h : m.opciones.limpiarAntes = true) :
    (ejecutarMigracionAutomatica db m).1.head? = some Evento.limpiado := by
  simp only [ejecutarMigracionAutomatica, h, if_true]
  repeat' split
  all_goals simp

/-- Claim C5: every statement text executed by a run is a function of the
mapping spec alone — each node batch runs the statement generated from
its entity's label and field map, each relationship batch the statement
generated from the relationship and the declared entities; the row data
travels separately, as the parameter records of the write event, and
never appears in the statement text. -/
theorem consultasSoloDeLaEspec (db : Fuente) (m : Mapeo) (ev : Evento)
    (h : ev ∈ (ejecutarMigracionAutomatica db m).1) :
    (∀ etiqueta consulta registros, ev = .nodosEscritos etiqueta consulta registros →
       ∃ ent, ent ∈ m.entidades ∧ etiqueta = ent.etiqueta
         ∧ genConsultaNodo ent.etiqueta (ent.mapeo.map Prod.snd) = some consulta)
    ∧ (∀ tipo consulta registros, ev = .relacionesEscritas tipo consulta registros →
       ∃ rel, rel ∈ m.relaciones ∧ tipo = rel.tipo
         ∧ genConsultaRel m.entidades rel = .ok consulta) := by
  have hsplit : ev ∈ (if m.opciones.limpiarAntes then [Evento.limpiado] else [])
      ∨ ev ∈ (migrarEntidades db m.entidades).1
      ∨ ev ∈ (migrarRelaciones db m.entidades m.relaciones).1
      ∨ ev ∈ (if m.opciones.crearIndices then crearIndices m.entidades
          else ([], none)).1
      ∨ ev ∈ eventosEstadisticas m := by
    simp only [ejecutarMigracionAutomatica] at h
    set L := (if m.opciones.limpiarAntes then [Evento.limpiado] else []) with hLdef
    set pIdx := (if m.opciones.crearIndices then crearIndices m.entidades
        else (([] : List Evento), (none : Option MigError))) with hIdef
    repeat' split at h
    all_goals (simp only [List.mem_append] at h; tauto)
  constructor
  · intro et c r heq
    subst heq
    rcases hsplit with hb | hb | hb | hb | hb
    · revert hb
      split <;> (intro hb; simp at hb)
    · exact nodosEscritos_de_entidades db m.entidades et c r hb
    · have := rango_migrarRelaciones db m.entidades m.relaciones _ hb
      simp [rango] at this
    · revert hb
      split
      · intro hb
        have := rango_crearIndices m.entidades _ hb
        simp [rango] at this
      · intro hb
        simp at hb
    · have := rango_estadisticas m _ hb
      simp [rango] at this
  · intro t c r heq
    subst heq
    rcases hsplit with hb | hb | hb | hb | hb
    · revert hb
      split <;> (intro hb; simp at hb)
    · have := rango_migrarEntidades db m.entidades _ hb
      simp [rango] at this
    · exact relacionesEscritas_de_relaciones db m.entidades m.relaciones t c r hb
    · revert hb
      split
      · intro hb
        have := rango_crearIndices m.entidades _ hb
        simp [rango] at this
      · intro hb
        simp at hb
    · have := rango_estadisticas m _ hb
      simp [rango] at this

/-- Witness for C5: a concrete run whose trace contains a node write, and
the theorem's conclusion at that event. -/
theorem consultasSoloDeLaEspec_witness :
    (Evento.nodosEscritos "Persona"
        "\n                    MERGE (n:Persona \x7bid: $id\x7d)\n                    SET n.id = $id, n.nombre = $nombre\n                "
        [[("id", Valor.entero 1), ("nombre", Valor.texto "A")]]
      ∈ (ejecutarMigracionAutomatica
          (fun _ => Except.ok [[Valor.entero 1, Valor.texto "A"]])
          ⟨[⟨"usuarios", "Persona", "QU", [("id_usuario", "id"), ("nombre", "nombre")]⟩],
           [⟨"amistades", "AMIGO_DE", "QA", "Persona", "Persona"⟩],
           ⟨false, false, false⟩⟩).1)
    ∧ ((∀ etiqueta consulta registros,
          Evento.nodosEscritos "Persona"
              "\n                    MERGE (n:Persona \x7bid: $id\x7d)\n                    SET n.id = $id, n.nombre = $nombre\n                "
              [[("id", Valor.entero 1), ("nombre", Valor.texto "A")]]
            = Evento.nodosEscritos etiqueta consulta registros →
          ∃ ent, ent ∈ [(⟨"usuarios", "Persona", "QU",
                [("id_usuario", "id"), ("nombre", "nombre")]⟩ : Entidad)]
            ∧ etiqueta = ent.etiqueta
            ∧ genConsultaNodo ent.etiqueta (ent.mapeo.map Prod.snd) = some consulta)
       ∧ (∀ tipo consulta registros,
          Evento.nodosEscritos "Persona"
              "\n                    MERGE (n:Persona \x7bid: $id\x7d)\n                    SET n.id = $id, n.nombre = $nombre\n                "
              [[("id", Valor.entero 1), ("nombre", Valor.texto "A")]]
            = Evento.relacionesEscritas tipo consulta registros →
          ∃ rel, rel ∈ [(⟨"amistades", "AMIGO_DE", "QA", "Persona", "Persona"⟩ : Relacion)]
            ∧ tipo = rel.tipo
            ∧ genConsultaRel [(⟨"usuarios", "Persona", "QU",
                  [("id_usuario", "id"), ("nombre", "nombre")]⟩ : Entidad)] rel
                = .ok consulta)) :=
  ⟨by decide,
   consultasSoloDeLaEspec
     (fun _ => Except.ok [[Valor.entero 1, Valor.texto "A"]])
     ⟨[⟨"usuarios", "Persona", "QU", [("id_usuario", "id"), ("nombre", "nombre")]⟩],
      [⟨"amistades", "AMIGO_DE", "QA", "Persona", "Persona"⟩],
      ⟨false, false, false⟩⟩
     (Evento.nodosEscritos "Persona"
        "\n                    MERGE (n:Persona \x7bid: $id\x7d)\n                    SET n.id = $id, n.nombre = $nombre\n                "
        [[("id", Valor.entero 1), ("nombre", Valor.texto "A")]])
     (by decide)⟩

/-- Claim C6: a run's trace is ordered by phase — clearing, entity
writes, relationship writes, index creation, statistics, in that order —
the announced entities are a prefix of the declared entity sequence in
declaration order, the announced relationships a prefix of the declared
relationship sequence, and when clearing is configured it is the very
first event of the trace. -/
theorem fases_en_orden (db : Fuente) (m : Mapeo) :
    (ejecutarMigracionAutomatica db m).1.Pairwise (fun a b => rango a ≤ rango b)
    ∧ (∃ k, (ejecutarMigracionAutomatica db m).1.filterMap nombreAnunciado
        = (m.entidades.map Entidad.nombre).take k)
    ∧ (∃ j, (ejecutarMigracionAutomatica db m).1.filterMap tipoAnunciado
        = (m.relaciones.map Relacion.tipo).take j)
    ∧ (m.opciones.limpiarAntes = true →
        (ejecutarMigracionAutomatica db m).1.head? = some Evento.limpiado) :=
  ⟨(ordenado_traza db m).1, nombres_traza db m, tipos_traza db m,
   limpiado_primero db m⟩

/-- Witness for C6: the clearing-configured hypothesis discharged at a
concrete run whose first event is the clear. -/
theorem fases_en_orden_witness :
    ((⟨[], [], ⟨true, false, false⟩⟩ : Mapeo).opciones.limpiarAntes = true)
    ∧ (ejecutarMigracionAutomatica ((fun _ => Except.ok []) : Fuente)
        ⟨[], [], ⟨true, false, false⟩⟩).1.head? = some Evento.limpiado :=
  ⟨rfl, (fases_en_orden (fun _ => Except.ok []) ⟨[], [], ⟨true, false, false⟩⟩).2.2.2 rfl⟩
